import Mathlib

/-!
Shallow embedding of the indicator-computation and decision-evaluation
pipeline of the Python-Stock-In-TW repository (PullBackIn.py, the
"balanced" preset, whose decision logic is the one the specification
describes; main.py duplicates the same indicator code).

Prices and volumes are modelled as rationals; pandas NaN cells are
modelled as `Option` with `none` standing for NaN.
-/

namespace PullbackTW

/-! ### Strategy parameters (module constants of PullBackIn.py, lines 19-30) -/

def RSI_PERIOD : ℕ := 14

def SMA_SHORT : ℕ := 20

def SMA_MID : ℕ := 50

def SMA_LONG : ℕ := 200

def VOL_SMA : ℕ := 20

def PULLBACK_NDAYS : ℕ := 10

def PULLBACK_PCT : ℚ := 7/100

def VOL_MIN_RATIO_ENTRY : ℚ := 8/10

def VOL_MIN_RATIO_CONFIRM : ℚ := 12/10

def SL_BUFFER_PCT : ℚ := 15/1000

/-! ### pandas primitives used by the indicator code -/

/-- `series.diff()`: first cell is NaN, cell `i` is `series[i] - series[i-1]`.
Auxiliary recursion carrying the previous value. -/

def diffsAux (p : ℚ) : List ℚ → List (Option ℚ)
  | [] => []
  | c :: cs => some (c - p) :: diffsAux c cs

/-- `series.diff()` on a close series. -/

def diffs : List ℚ → List (Option ℚ)
  | [] => []
  | c :: cs => none :: diffsAux c cs

/-- `series.ewm(alpha=a, adjust=False).mean()` over a series with possible
NaN cells: the state is `none` until the first valid observation, which
seeds the mean; afterwards `y ← (1-a)*y + a*x`.  (In the RSI computation
only the leading `diff` cell is NaN.) -/

def ewmGo (a : ℚ) : Option ℚ → List (Option ℚ) → List (Option ℚ)
  | _, [] => []
  | none, none :: xs => none :: ewmGo a none xs
  | none, some x :: xs => some x :: ewmGo a (some x) xs
  | some y, none :: xs => some y :: ewmGo a (some y) xs
  | some y, some x :: xs =>
      some ((1 - a) * y + a * x) :: ewmGo a (some ((1 - a) * y + a * x)) xs

def ewmMean (a : ℚ) (xs : List (Option ℚ)) : List (Option ℚ) := ewmGo a none xs

/-! ### calc_rsi_wilder (PullBackIn.py lines 76-85; identical to
calc_rsi in main.py lines 33-44) -/

/-- `delta.clip(lower=0)` applied cellwise. -/

def clip_up (d : ℚ) : ℚ := max d 0

/-- `-delta.clip(upper=0)` applied cellwise. -/

def clip_down (d : ℚ) : ℚ := max (-d) 0

/-- `up.ewm(alpha=1/n, adjust=False).mean()` of the clipped gains. -/

def avg_gain_of (close : List ℚ) (n : ℕ) : List (Option ℚ) :=
  ewmMean (1/(n:ℚ)) ((diffs close).map (Option.map clip_up))

/-- `down.ewm(alpha=1/n, adjust=False).mean()` of the clipped losses. -/

def avg_loss_of (close : List ℚ) (n : ℕ) : List (Option ℚ) :=
  ewmMean (1/(n:ℚ)) ((diffs close).map (Option.map clip_down))

/-- `rs = avg_gain / avg_loss.replace(0, np.nan)`: a zero average loss is
replaced by NaN before the division, and NaN propagates. -/

def rs_of (close : List ℚ) (n : ℕ) : List (Option ℚ) :=
  List.zipWith
    (fun g l =>
      match g, l with
      | some g, some l => if l = 0 then none else some (g / l)
      | _, _ => none)
    (avg_gain_of close n) (avg_loss_of close n)

/-- `rsi = (100 - 100/(1+rs)).fillna(50)`. -/

def calc_rsi_wilder (close : List ℚ) (n : ℕ) : List ℚ :=
  ((rs_of close n).map (Option.map (fun r => 100 - 100 / (1 + r)))).map
    (fun x => x.getD 50)

/-! ### Length bookkeeping for the RSI pipeline -/

structure EnrichedBar where
  close : ℚ
  low : ℚ
  high : ℚ
  volume : ℚ
  sma20 : Option ℚ
  sma50 : Option ℚ
  sma200 : Option ℚ
  rsi : ℚ
  macd : ℚ
  macd_sig : ℚ
  macd_hist : ℚ
  vol_sma : Option ℚ
  deriving Inhabited, DecidableEq, Repr

/-- `df.iloc[-1]`, the latest bar (junk default on the empty frame, where
the Python would raise). -/

def latestOf (df : List EnrichedBar) : EnrichedBar := df.getLastD default

/-- `df.iloc[-2]`, the prior bar. -/

def prevOf (df : List EnrichedBar) : EnrichedBar := df.dropLast.getLastD default

/-- `l.iloc[-n:]`: the last `min n (length l)` rows. -/

def lastN (n : ℕ) (l : List EnrichedBar) : List EnrichedBar := l.drop (l.length - n)

/-- `.max()` of a nonempty column slice (junk 0 on the empty slice, where
pandas yields NaN; unreachable in every use below). -/

def rollMax : List ℚ → ℚ
  | [] => 0
  | [x] => x
  | x :: y :: l => max x (rollMax (y :: l))

/-- `.min()` of a nonempty column slice. -/

def rollMin : List ℚ → ℚ
  | [] => 0
  | [x] => x
  | x :: y :: l => min x (rollMin (y :: l))

/-- `recent_high = df['High'].iloc[-n:].max()` (line 139). -/

def recent_high_of (n : ℕ) (df : List EnrichedBar) : ℚ :=
  rollMax ((lastN n df).map EnrichedBar.high)

/-- `recent_low = df['Low'].iloc[-n:].min()` (line 140). -/

def recent_low_of (n : ℕ) (df : List EnrichedBar) : ℚ :=
  rollMin ((lastN n df).map EnrichedBar.low)

/-- `drop_from_high = (recent_high - low) / recent_high if recent_high > 0
else 0.0` (line 141). -/

def drop_from_high_of (n : ℕ) (df : List EnrichedBar) : ℚ :=
  if 0 < recent_high_of n df
  then (recent_high_of n df - (latestOf df).low) / recent_high_of n df
  else 0

/-! ### Configuration record: the spec's configuration surface; the
balanced preset instantiates it with the module constants. -/

structure Config where
  pullback_ndays : ℕ
  pullback_pct : ℚ
  vol_min_ratio_entry : ℚ
  vol_min_ratio_confirm : ℚ
  sl_buffer_pct : ℚ
  deriving DecidableEq, Repr

def balancedConfig : Config :=
  { pullback_ndays := PULLBACK_NDAYS
    pullback_pct := PULLBACK_PCT
    vol_min_ratio_entry := VOL_MIN_RATIO_ENTRY
    vol_min_ratio_confirm := VOL_MIN_RATIO_CONFIRM
    sl_buffer_pct := SL_BUFFER_PCT }

/-! ### The five rules of decision_pullback_balanced (lines 143-192) -/

/-- Trend (lines 147-150): `sma50 > sma200 and close > sma50`, false when
either SMA is NaN. -/

def trend_ok_of (df : List EnrichedBar) : Bool :=
  match (latestOf df).sma50, (latestOf df).sma200 with
  | some sma50, some sma200 =>
      decide (sma200 < sma50) && decide (sma50 < (latestOf df).close)
  | _, _ => false

/-- Pullback by short SMA (line 154): `not isnan(sma20) and low <= sma20`. -/

def pullback_by_sma20_of (df : List EnrichedBar) : Bool :=
  match (latestOf df).sma20 with
  | some sma20 => decide ((latestOf df).low ≤ sma20)
  | none => false

/-- Pullback by percentage (line 155): `drop_from_high >= PULLBACK_PCT`. -/

def pullback_by_pct_of (cfg : Config) (df : List EnrichedBar) : Bool :=
  decide (cfg.pullback_pct ≤ drop_from_high_of cfg.pullback_ndays df)

/-- RSI momentum rule (lines 166-168): between 30 and 50 and rising, or
crossing 30 or 40 upward. -/

def rsi_ok_of (df : List EnrichedBar) : Bool :=
  decide ((30 ≤ (latestOf df).rsi ∧ (latestOf df).rsi ≤ 50 ∧ (prevOf df).rsi < (latestOf df).rsi)
    ∨ ((prevOf df).rsi < 30 ∧ 30 ≤ (latestOf df).rsi)
    ∨ ((prevOf df).rsi < 40 ∧ 40 ≤ (latestOf df).rsi))

/-- MACD momentum rule (lines 173-176): histogram rising and positive, or
MACD above its signal line. -/

def macd_ok_of (df : List EnrichedBar) : Bool :=
  decide (((prevOf df).macd_hist < (latestOf df).macd_hist ∧ 0 < (latestOf df).macd_hist)
    ∨ (latestOf df).macd_sig < (latestOf df).macd)

/-- Volume gate (lines 181-182): `not isnan(vol20) and vol >= ratio * vol20`;
instantiated once with the entry ratio and once with the confirmation
ratio. -/

def vol_ok_of (ratio : ℚ) (df : List EnrichedBar) : Bool :=
  match (latestOf df).vol_sma with
  | some vol20 => decide (ratio * vol20 ≤ (latestOf df).volume)
  | none => false

/-- Final verdict (lines 189-191). -/

def entryOf (cfg : Config) (df : List EnrichedBar) : Bool :=
  trend_ok_of df && (pullback_by_sma20_of df || pullback_by_pct_of cfg df)
    && (rsi_ok_of df || macd_ok_of df) && vol_ok_of cfg.vol_min_ratio_entry df

/-! ### Reasons (one appended per rule, lines 151-185).  The numeric
payloads of the strings are presentation; the constructors record which
rule the string reports and its outcome. -/

inductive Reason where
  | trend (ok : Bool)
  | pullbackSma
  | pullbackPct
  | pullbackNone
  | rsi (ok : Bool)
  | macd (ok : Bool)
  | volume (entry_ok confirm_ok : Bool)
  deriving DecidableEq, Repr

inductive RuleName where
  | trend
  | pullback
  | rsi
  | macd
  | volume
  deriving DecidableEq, Repr

def ruleOf : Reason → RuleName
  | Reason.trend _ => RuleName.trend
  | Reason.pullbackSma => RuleName.pullback
  | Reason.pullbackPct => RuleName.pullback
  | Reason.pullbackNone => RuleName.pullback
  | Reason.rsi _ => RuleName.rsi
  | Reason.macd _ => RuleName.macd
  | Reason.volume _ _ => RuleName.volume

def reasonsOf (cfg : Config) (df : List EnrichedBar) : List Reason :=
  [Reason.trend (trend_ok_of df),
   if pullback_by_sma20_of df then Reason.pullbackSma
   else if pullback_by_pct_of cfg df then Reason.pullbackPct
   else Reason.pullbackNone,
   Reason.rsi (rsi_ok_of df),
   Reason.macd (macd_ok_of df),
   Reason.volume (vol_ok_of cfg.vol_min_ratio_entry df) (vol_ok_of cfg.vol_min_ratio_confirm df)]

/-! ### Trade plan (lines 194-210) and the assembled result -/

structure Plan where
  buy_zone : Option (ℚ × ℚ)
  buy_break : Option ℚ
  stop_loss : Option ℚ
  vol_entry_ok : Bool
  vol_confirm_ok : Bool
  deriving DecidableEq, Repr

/-- Lines 198-210: `if pullback_by_sma20 and not isnan(sma20)` then the
SMA-anchored zone, `elif pullback_by_pct` then the retracement zone, else
the breakout trigger; the stop loss is set in all three branches. -/

def planOf (cfg : Config) (df : List EnrichedBar) : Plan :=
  match (latestOf df).sma20, pullback_by_sma20_of df with
  | some sma20, true =>
      { buy_zone := some (max (recent_low_of cfg.pullback_ndays df) (sma20 * (98/100)),
                          max (latestOf df).close sma20)
        buy_break := none
        stop_loss := some (recent_low_of cfg.pullback_ndays df * (1 - cfg.sl_buffer_pct))
        vol_entry_ok := vol_ok_of cfg.vol_min_ratio_entry df
        vol_confirm_ok := vol_ok_of cfg.vol_min_ratio_confirm df }
  | _, _ =>
      if pullback_by_pct_of cfg df then
        { buy_zone := some (recent_low_of cfg.pullback_ndays df,
                            (recent_high_of cfg.pullback_ndays df + recent_low_of cfg.pullback_ndays df) / 2)
          buy_break := none
          stop_loss := some (recent_low_of cfg.pullback_ndays df * (1 - cfg.sl_buffer_pct))
          vol_entry_ok := vol_ok_of cfg.vol_min_ratio_entry df
          vol_confirm_ok := vol_ok_of cfg.vol_min_ratio_confirm df }
      else
        { buy_zone := none
          buy_break := some ((latestOf df).high * (1002/1000))
          stop_loss := some (recent_low_of cfg.pullback_ndays df * (1 - cfg.sl_buffer_pct))
          vol_entry_ok := vol_ok_of cfg.vol_min_ratio_entry df
          vol_confirm_ok := vol_ok_of cfg.vol_min_ratio_confirm df }

structure Flags where
  trend_ok : Bool
  pullback_by_sma20 : Bool
  pullback_by_pct : Bool
  rsi_ok : Bool
  macd_ok : Bool
  vol_entry_ok : Bool
  vol_confirm_ok : Bool
  entry : Bool
  deriving DecidableEq, Repr

def flagsOf (cfg : Config) (df : List EnrichedBar) : Flags :=
  { trend_ok := trend_ok_of df
    pullback_by_sma20 := pullback_by_sma20_of df
    pullback_by_pct := pullback_by_pct_of cfg df
    rsi_ok := rsi_ok_of df
    macd_ok := macd_ok_of df
    vol_entry_ok := vol_ok_of cfg.vol_min_ratio_entry df
    vol_confirm_ok := vol_ok_of cfg.vol_min_ratio_confirm df
    entry := entryOf cfg df }

/-- The numeric snapshot collected for printing (lines 213-230). -/

structure Values where
  close : ℚ
  low : ℚ
  high : ℚ
  volume : ℚ
  sma20 : Option ℚ
  sma50 : Option ℚ
  sma200 : Option ℚ
  rsi : ℚ
  rsi_prev : ℚ
  macd : ℚ
  macd_sig : ℚ
  macd_hist : ℚ
  vol20 : Option ℚ
  recent_high : ℚ
  recent_low : ℚ
  drop_from_high_pct : ℚ
  deriving DecidableEq, Repr

def valuesOf (cfg : Config) (df : List EnrichedBar) : Values :=
  { close := (latestOf df).close
    low := (latestOf df).low
    high := (latestOf df).high
    volume := (latestOf df).volume
    sma20 := (latestOf df).sma20
    sma50 := (latestOf df).sma50
    sma200 := (latestOf df).sma200
    rsi := (latestOf df).rsi
    rsi_prev := (prevOf df).rsi
    macd := (latestOf df).macd
    macd_sig := (latestOf df).macd_sig
    macd_hist := (latestOf df).macd_hist
    vol20 := (latestOf df).vol_sma
    recent_high := recent_high_of cfg.pullback_ndays df
    recent_low := recent_low_of cfg.pullback_ndays df
    drop_from_high_pct := drop_from_high_of cfg.pullback_ndays df * 100 }

structure DecisionResult where
  entry : Bool
  reasons : List Reason
  flags : Flags
  values : Values
  plan : Plan
  deriving DecidableEq, Repr

/-- decision_pullback_balanced (lines 120-241), parameterized by the
configuration record; the source hard-codes `balancedConfig`. -/

def decisionB (cfg : Config) (df : List EnrichedBar) : DecisionResult :=
  { entry := entryOf cfg df
    reasons := reasonsOf cfg df
    flags := flagsOf cfg df
    values := valuesOf cfg df
    plan := planOf cfg df }

def decision_pullback_balanced (df : List EnrichedBar) : DecisionResult :=
  decisionB balancedConfig df

/-! ### Window lemmas -/

def bar1 : EnrichedBar :=
  { close := 10, low := 9, high := 11, volume := 100, sma20 := some 10, sma50 := some 10,
    sma200 := some 9, rsi := 35, macd := 0, macd_sig := 0, macd_hist := 0, vol_sma := some 100 }

def bar2 : EnrichedBar :=
  { close := 10, low := 9, high := 11, volume := 100, sma20 := some 10, sma50 := some 9,
    sma200 := some 8, rsi := 45, macd := 1, macd_sig := 0, macd_hist := 1, vol_sma := some 100 }

def dfW : List EnrichedBar := [bar1, bar2]

/-- Claim C3: for every enriched series with at least two bars, the verdict
equals exactly trend AND (pullback-by-SMA OR pullback-by-pct) AND (RSI OR
MACD) AND volume-entry-ok, and the volume-entry flag is the comparison
against 0.8 times the volume SMA (the entry ratio, not the confirmation
ratio). -/

def bar3 : EnrichedBar := { bar2 with volume := 200 }

def df9 : List EnrichedBar := [bar1, bar3]

/-- Witness for claim C9 at a frame whose latest volume 200 passes the
confirmation gate 1.2 × 100. -/

structure RawBar where
  open_px : ℚ
  high : ℚ
  low : ℚ
  close : ℚ
  volume : ℚ
  deriving Inhabited, DecidableEq, Repr

/-- `series.rolling(n).mean()` (calc_sma, lines 73-74): NaN for the first
n−1 cells, then the mean of the trailing n cells. -/

def calc_sma (series : List ℚ) (n : ℕ) : List (Option ℚ) :=
  (List.range series.length).map
    (fun i => if i + 1 < n then none
              else some ((((series.drop (i + 1 - n)).take n).sum) / (n : ℚ)))

/-- `close.ewm(span=s, adjust=False).mean()` body after the seed. -/

def ewmSpanGo (a : ℚ) (y : ℚ) : List ℚ → List ℚ
  | [] => []
  | x :: xs => ((1 - a) * y + a * x) :: ewmSpanGo a ((1 - a) * y + a * x) xs

/-- `close.ewm(span=s, adjust=False).mean()`: seeded with the first value,
smoothing factor 2/(span+1). -/

def ewmSpan (span : ℕ) : List ℚ → List ℚ
  | [] => []
  | x :: xs => x :: ewmSpanGo (2 / ((span : ℚ) + 1)) x xs

/-- calc_macd (lines 87-93). -/

def calc_macd (close : List ℚ) (fast slow signal : ℕ) :
    List ℚ × List ℚ × List ℚ :=
  let ema_fast := ewmSpan fast close
  let ema_slow := ewmSpan slow close
  let macd := List.zipWith (fun a b => a - b) ema_fast ema_slow
  let macd_sig := ewmSpan signal macd
  (macd, macd_sig, List.zipWith (fun a b => a - b) macd macd_sig)

/-- prepare_df (lines 106-117): adds the indicator columns to every row. -/

def prepare_df (df : List RawBar) : List EnrichedBar :=
  let closes := df.map RawBar.close
  let sma20 := calc_sma closes SMA_SHORT
  let sma50 := calc_sma closes SMA_MID
  let sma200 := calc_sma closes SMA_LONG
  let rsis := calc_rsi_wilder closes RSI_PERIOD
  let m := calc_macd closes 12 26 9
  let volsma := calc_sma (df.map RawBar.volume) VOL_SMA
  (List.range df.length).map (fun i =>
    { close := closes.getD i 0
      low := (df.map RawBar.low).getD i 0
      high := (df.map RawBar.high).getD i 0
      volume := (df.map RawBar.volume).getD i 0
      sma20 := sma20.getD i none
      sma50 := sma50.getD i none
      sma200 := sma200.getD i none
      rsi := rsis.getD i 0
      macd := m.1.getD i 0
      macd_sig := m.2.1.getD i 0
      macd_hist := m.2.2.getD i 0
      vol_sma := volsma.getD i none })

/-- The observable steps of main() after the fetch. -/

inductive Step where
  | computeIndicators
  | raiseInsufficient
  | decideEntry
  deriving DecidableEq, Repr

/-- `max(SMA_LONG, RSI_PERIOD, VOL_SMA, PULLBACK_NDAYS) + 5` (line 290). -/

def MIN_BARS : ℕ := max (max (max SMA_LONG RSI_PERIOD) VOL_SMA) PULLBACK_NDAYS + 5

/-- main() after the fetch (lines 288-293), with the statement order of the
source recorded as a step trace: `prepare_df` runs first, then the length
check raises, else the decision engine runs. -/

def mainRun (df0 : List RawBar) : List Step × Except String DecisionResult :=
  let df := prepare_df df0
  if df.length < MIN_BARS then
    ([Step.computeIndicators, Step.raiseInsufficient], Except.error "insufficient history")
  else
    ([Step.computeIndicators, Step.decideEntry], Except.ok (decision_pullback_balanced df))

def shortRaw : List RawBar :=
  [{ open_px := 1, high := 1, low := 1, close := 1, volume := 1 }]

/-! ### Lemmas and claim theorems -/

theorem diffsAux_length (p : ℚ) (l : List ℚ) : (diffsAux p l).length = l.length := by
  induction l generalizing p with
  | nil => rfl
  | cons c cs ih => simp [diffsAux, ih]

theorem diffs_length (l : List ℚ) : (diffs l).length = l.length := by
  cases l with
  | nil => rfl
  | cons c cs => simp [diffs, diffsAux_length]

theorem ewmGo_length (a : ℚ) (st : Option ℚ) (xs : List (Option ℚ)) :
    (ewmGo a st xs).length = xs.length := by
  induction xs generalizing st with
  | nil => cases st <;> rfl
  | cons x xs ih => cases st <;> cases x <;> simp [ewmGo, ih]

theorem ewmMean_length (a : ℚ) (xs : List (Option ℚ)) :
    (ewmMean a xs).length = xs.length := ewmGo_length a none xs

theorem avg_gain_length (close : List ℚ) (n : ℕ) :
    (avg_gain_of close n).length = close.length := by
  simp [avg_gain_of, ewmMean_length, diffs_length]

theorem avg_loss_length (close : List ℚ) (n : ℕ) :
    (avg_loss_of close n).length = close.length := by
  simp [avg_loss_of, ewmMean_length, diffs_length]

theorem rs_length (close : List ℚ) (n : ℕ) :
    (rs_of close n).length = close.length := by
  simp [rs_of, avg_gain_length, avg_loss_length]

theorem calc_rsi_wilder_length (close : List ℚ) (n : ℕ) :
    (calc_rsi_wilder close n).length = close.length := by
  simp [calc_rsi_wilder, rs_length]

/-! ### Non-negativity of the smoothed gain/loss averages -/

theorem ewmGo_nonneg (a : ℚ) (ha0 : 0 ≤ a) (ha1 : a ≤ 1) :
    ∀ (st : Option ℚ) (xs : List (Option ℚ)),
      (∀ y, st = some y → 0 ≤ y) →
      (∀ x ∈ xs, ∀ v, x = some v → 0 ≤ v) →
      ∀ z ∈ ewmGo a st xs, ∀ v, z = some v → 0 ≤ v := by
  intro st xs
  induction xs generalizing st with
  | nil =>
    intro _ _ z hz
    cases st <;> simp [ewmGo] at hz
  | cons x xs ih =>
    intro hst hxs z hz v hv
    have hhead : ∀ v, x = some v → 0 ≤ v := fun v hv => hxs x (by simp) v hv
    have htail : ∀ x ∈ xs, ∀ v, x = some v → 0 ≤ v :=
      fun x hx v hv => hxs x (by simp [hx]) v hv
    cases st with
    | none =>
      cases x with
      | none =>
        simp [ewmGo] at hz
        rcases hz with hz | hz
        · simp [hz] at hv
        · exact ih none (by simp) htail z hz v hv
      | some x0 =>
        simp [ewmGo] at hz
        rcases hz with hz | hz
        · rw [hz] at hv; injection hv with hv; subst hv
          exact hhead _ rfl
        · exact ih (some x0) (by intro y hy; injection hy with hy; subst hy; exact hhead _ rfl)
            htail z hz v hv
    | some y0 =>
      have hy0 : 0 ≤ y0 := hst y0 rfl
      cases x with
      | none =>
        simp [ewmGo] at hz
        rcases hz with hz | hz
        · rw [hz] at hv; injection hv with hv; subst hv; exact hy0
        · exact ih (some y0) (by intro y hy; injection hy with hy; subst hy; exact hy0)
            htail z hz v hv
      | some x0 =>
        have hx0 : 0 ≤ x0 := hhead x0 rfl
        have hnew : 0 ≤ (1 - a) * y0 + a * x0 := by
          have h1 : 0 ≤ (1 - a) * y0 := mul_nonneg (by linarith) hy0
          have h2 : 0 ≤ a * x0 := mul_nonneg ha0 hx0
          linarith
        simp [ewmGo] at hz
        rcases hz with hz | hz
        · rw [hz] at hv; injection hv with hv; subst hv; exact hnew
        · exact ih (some ((1 - a) * y0 + a * x0))
            (by intro y hy; injection hy with hy; subst hy; exact hnew) htail z hz v hv

theorem wilder_alpha_nonneg (n : ℕ) : 0 ≤ 1/(n:ℚ) := by positivity

theorem wilder_alpha_le_one (n : ℕ) : 1/(n:ℚ) ≤ 1 := by
  cases n with
  | zero => norm_num
  | succ m =>
    rw [div_le_one (by positivity)]
    exact_mod_cast Nat.succ_le_succ (Nat.zero_le m)

theorem avg_gain_nonneg (close : List ℚ) (n : ℕ) :
    ∀ z ∈ avg_gain_of close n, ∀ v, z = some v → 0 ≤ v := by
  apply ewmGo_nonneg _ (wilder_alpha_nonneg n) (wilder_alpha_le_one n) none _ (by simp)
  intro x hx v hv
  rcases List.mem_map.mp hx with ⟨d, _, hd⟩
  cases d with
  | none => simp [hd.symm] at hv
  | some d0 =>
    rw [← hd] at hv
    simp at hv
    rw [← hv]
    simp [clip_up]

theorem avg_loss_nonneg (close : List ℚ) (n : ℕ) :
    ∀ z ∈ avg_loss_of close n, ∀ v, z = some v → 0 ≤ v := by
  apply ewmGo_nonneg _ (wilder_alpha_nonneg n) (wilder_alpha_le_one n) none _ (by simp)
  intro x hx v hv
  rcases List.mem_map.mp hx with ⟨d, _, hd⟩
  cases d with
  | none => simp [hd.symm] at hv
  | some d0 =>
    rw [← hd] at hv
    simp at hv
    rw [← hv]
    simp [clip_down]

/-! ### The RSI value at one bar, as a function of the smoothed averages -/

theorem calc_rsi_wilder_getD (close : List ℚ) (n : ℕ) (i : ℕ) (hi : i < close.length) :
    (calc_rsi_wilder close n).getD i 0 =
      (((rs_of close n).getD i none).map (fun r => 100 - 100 / (1 + r))).getD 50 := by
  have h1 : i < (rs_of close n).length := by rw [rs_length]; exact hi
  have h2 : i < ((rs_of close n).map (Option.map (fun r => 100 - 100 / (1 + r)))).length := by
    simpa using h1
  have h3 : i < (calc_rsi_wilder close n).length := by rw [calc_rsi_wilder_length]; exact hi
  rw [List.getD_eq_getElem _ _ h3, List.getD_eq_getElem _ _ h1]
  simp [calc_rsi_wilder]

theorem rs_of_getD (close : List ℚ) (n : ℕ) (i : ℕ) (hi : i < close.length) :
    (rs_of close n).getD i none =
      (match (avg_gain_of close n).getD i none, (avg_loss_of close n).getD i none with
       | some g, some l => if l = 0 then none else some (g / l)
       | _, _ => none) := by
  have hg : i < (avg_gain_of close n).length := by rw [avg_gain_length]; exact hi
  have hl : i < (avg_loss_of close n).length := by rw [avg_loss_length]; exact hi
  have hr : i < (rs_of close n).length := by rw [rs_length]; exact hi
  rw [List.getD_eq_getElem _ _ hr, List.getD_eq_getElem _ _ hg, List.getD_eq_getElem _ _ hl]
  simp [rs_of]

/-- Claim C1, counterexample: on the close series [1, 2, 3] every price delta
is non-negative, so the Wilder-smoothed average loss at the final bar is
exactly zero; the code then produces RSI = 50 (the `replace(0, nan)` turns
the zero loss into NaN and `fillna(50)` fills it), not 100 as the claim
states. -/

theorem claim_C1_counterexample :
    (avg_loss_of [1, 2, 3] 14).getD 2 none = some 0
    ∧ (calc_rsi_wilder [1, 2, 3] 14).getD 2 0 = 50
    ∧ (calc_rsi_wilder [1, 2, 3] 14).getD 2 0 ≠ 100 := by
  norm_num [calc_rsi_wilder, rs_of, avg_gain_of, avg_loss_of, ewmMean, ewmGo,
    diffs, diffsAux, clip_up, clip_down]

/-- Claim C1 (amended): at any bar where the Wilder-smoothed average loss is
exactly zero, the RSI value produced by `calc_rsi_wilder` equals 50 (the
neutral fill value) — not an error — and the RSI value is always within
[0, 100]. -/

theorem claim_C1_rsi_zero_loss (close : List ℚ) (n : ℕ) (i : ℕ) (hi : i < close.length) :
    ((avg_loss_of close n).getD i none = some 0 → (calc_rsi_wilder close n).getD i 0 = 50)
    ∧ 0 ≤ (calc_rsi_wilder close n).getD i 0
    ∧ (calc_rsi_wilder close n).getD i 0 ≤ 100 := by
  have hval := calc_rsi_wilder_getD close n i hi
  have hrs := rs_of_getD close n i hi
  cases hL : (avg_loss_of close n).getD i none with
  | none =>
    have hnone : (rs_of close n).getD i none = none := by
      rw [hrs, hL]; cases (avg_gain_of close n).getD i none <;> rfl
    rw [hnone] at hval
    simp only [Option.map_none', Option.getD_none] at hval
    refine ⟨by simp, by rw [hval]; norm_num, by rw [hval]; norm_num⟩
  | some lv =>
    have hlv : 0 ≤ lv := by
      apply avg_loss_nonneg close n ((avg_loss_of close n).getD i none) _ lv hL
      rw [List.getD_eq_getElem _ _ (by rw [avg_loss_length]; exact hi)]
      exact List.getElem_mem _
    by_cases hlz : lv = 0
    · subst hlz
      have hnone : (rs_of close n).getD i none = none := by
        rw [hrs, hL]; cases (avg_gain_of close n).getD i none <;> simp
      rw [hnone] at hval
      simp only [Option.map_none', Option.getD_none] at hval
      exact ⟨fun _ => hval, by rw [hval]; norm_num, by rw [hval]; norm_num⟩
    · have hlpos : 0 < lv := lt_of_le_of_ne hlv (Ne.symm hlz)
      have himp : some lv = some 0 →
          (calc_rsi_wilder close n).getD i 0 = 50 := by
        intro h; injection h with h; exact absurd h hlz
      cases hG : (avg_gain_of close n).getD i none with
      | none =>
        have hnone : (rs_of close n).getD i none = none := by rw [hrs, hL, hG]
        rw [hnone] at hval
        simp only [Option.map_none', Option.getD_none] at hval
        exact ⟨himp, by rw [hval]; norm_num, by rw [hval]; norm_num⟩
      | some gv =>
        have hgv : 0 ≤ gv := by
          apply avg_gain_nonneg close n ((avg_gain_of close n).getD i none) _ gv hG
          rw [List.getD_eq_getElem _ _ (by rw [avg_gain_length]; exact hi)]
          exact List.getElem_mem _
        have hsome : (rs_of close n).getD i none = some (gv / lv) := by
          rw [hrs, hL, hG]; simp [hlz]
        rw [hsome] at hval
        simp only [Option.map_some', Option.getD_some] at hval
        have hr : 0 ≤ gv / lv := div_nonneg hgv (le_of_lt hlpos)
        have hb : 100 / (1 + gv / lv) ≤ 100 := div_le_self (by norm_num) (by linarith)
        have hb2 : 0 < 100 / (1 + gv / lv) := by positivity
        exact ⟨himp, by rw [hval]; linarith, by rw [hval]; linarith⟩

/-- Witness for claim C1's amended theorem at the concrete close series
[1, 2, 3] and the final bar. -/

theorem claim_C1_witness :
    ((avg_loss_of [1, 2, 3] 14).getD 2 none = some 0 →
      (calc_rsi_wilder [1, 2, 3] 14).getD 2 0 = 50)
    ∧ 0 ≤ (calc_rsi_wilder [1, 2, 3] 14).getD 2 0
    ∧ (calc_rsi_wilder [1, 2, 3] 14).getD 2 0 ≤ 100 :=
  claim_C1_rsi_zero_loss [1, 2, 3] 14 2 (by norm_num)

/-! ### Enriched bars: one row of the prepared dataframe
(columns added by prepare_df, PullBackIn.py lines 106-117).
NaN-able columns (warm-up SMAs and the volume SMA) are `Option`. -/

theorem le_rollMax (l : List ℚ) : ∀ x ∈ l, x ≤ rollMax l := by
  induction l with
  | nil => simp
  | cons a t ih =>
    cases t with
    | nil => intro x hx; simp at hx; simp [rollMax, hx]
    | cons b u =>
      intro x hx
      rcases List.mem_cons.mp hx with hx | hx
      · subst hx; simp [rollMax]
      · exact le_trans (ih x hx) (by simp [rollMax])

theorem rollMin_le (l : List ℚ) : ∀ x ∈ l, rollMin l ≤ x := by
  induction l with
  | nil => simp
  | cons a t ih =>
    cases t with
    | nil => intro x hx; simp at hx; simp [rollMin, hx]
    | cons b u =>
      intro x hx
      rcases List.mem_cons.mp hx with hx | hx
      · subst hx; simp [rollMin]
      · exact le_trans (by simp [rollMin]) (ih x hx)

theorem getLastD_of_ne_nil (l : List EnrichedBar) (h : l ≠ []) (d1 d2 : EnrichedBar) :
    l.getLastD d1 = l.getLastD d2 := by
  rw [List.getLastD_eq_getLast?, List.getLastD_eq_getLast?,
    List.getLast?_eq_getLast_of_ne_nil h]
  rfl

theorem latestOf_mem (df : List EnrichedBar) (h : df ≠ []) : latestOf df ∈ df := by
  unfold latestOf
  rw [List.getLastD_eq_getLast?, List.getLast?_eq_getLast_of_ne_nil h]
  exact List.getLast_mem h

theorem getLastD_mem_drop (l : List EnrichedBar) (k : ℕ) (hk : k < l.length) :
    l.getLastD default ∈ l.drop k := by
  induction l generalizing k with
  | nil => simp at hk
  | cons a t ih =>
    cases k with
    | zero =>
      simpa using latestOf_mem (a :: t) (by simp)
    | succ k =>
      have hk' : k < t.length := by simpa using hk
      have ht : t ≠ [] := by
        intro hnil; rw [hnil] at hk'; simp at hk'
      have hstep : (a :: t).getLastD default = t.getLastD default := by
        rw [List.getLastD_cons]
        exact getLastD_of_ne_nil t ht a default
      rw [List.drop_succ_cons, hstep]
      exact ih k hk'

theorem latestOf_mem_lastN (df : List EnrichedBar) (h : df ≠ []) (n : ℕ) (hn : 0 < n) :
    latestOf df ∈ lastN n df := by
  unfold latestOf lastN
  apply getLastD_mem_drop
  have hlen : 0 < df.length := List.length_pos.mpr h
  omega

/-! ### Characterizations of the NaN-guarded flags -/

theorem pullback_by_sma20_spec (df : List EnrichedBar) :
    pullback_by_sma20_of df = true ↔
      ∃ s, (latestOf df).sma20 = some s ∧ (latestOf df).low ≤ s := by
  unfold pullback_by_sma20_of
  cases h : (latestOf df).sma20 with
  | none => simp
  | some s => simp

theorem vol_ok_spec (ratio : ℚ) (df : List EnrichedBar) :
    vol_ok_of ratio df = true ↔
      ∃ v, (latestOf df).vol_sma = some v ∧ ratio * v ≤ (latestOf df).volume := by
  unfold vol_ok_of
  cases h : (latestOf df).vol_sma with
  | none => simp
  | some v => simp

/-! ### Concrete two-bar frames used by the witnesses -/

theorem claim_C3_verdict (df : List EnrichedBar) (h : 2 ≤ df.length) :
    (decision_pullback_balanced df).entry
      = ((decision_pullback_balanced df).flags.trend_ok
          && ((decision_pullback_balanced df).flags.pullback_by_sma20
              || (decision_pullback_balanced df).flags.pullback_by_pct)
          && ((decision_pullback_balanced df).flags.rsi_ok
              || (decision_pullback_balanced df).flags.macd_ok)
          && (decision_pullback_balanced df).flags.vol_entry_ok)
    ∧ ((decision_pullback_balanced df).flags.vol_entry_ok = true ↔
        ∃ v, (latestOf df).vol_sma = some v ∧ (8/10 : ℚ) * v ≤ (latestOf df).volume) := by
  constructor
  · rfl
  · have hv := vol_ok_spec (8/10) df
    simpa [decision_pullback_balanced, decisionB, flagsOf, balancedConfig,
      VOL_MIN_RATIO_ENTRY] using hv

/-- Witness for claim C3 at the concrete two-bar frame dfW. -/

theorem claim_C3_witness :
    (decision_pullback_balanced dfW).entry
      = ((decision_pullback_balanced dfW).flags.trend_ok
          && ((decision_pullback_balanced dfW).flags.pullback_by_sma20
              || (decision_pullback_balanced dfW).flags.pullback_by_pct)
          && ((decision_pullback_balanced dfW).flags.rsi_ok
              || (decision_pullback_balanced dfW).flags.macd_ok)
          && (decision_pullback_balanced dfW).flags.vol_entry_ok)
    ∧ ((decision_pullback_balanced dfW).flags.vol_entry_ok = true ↔
        ∃ v, (latestOf dfW).vol_sma = some v ∧ (8/10 : ℚ) * v ≤ (latestOf dfW).volume) :=
  claim_C3_verdict dfW (by simp [dfW])

theorem balanced_ndays : balancedConfig.pullback_ndays = 10 := rfl

theorem balanced_pct : balancedConfig.pullback_pct = 7/100 := rfl

theorem balanced_entry_ratio : balancedConfig.vol_min_ratio_entry = 8/10 := rfl

theorem balanced_confirm_ratio : balancedConfig.vol_min_ratio_confirm = 12/10 := rfl

theorem balanced_slbuf : balancedConfig.sl_buffer_pct = 15/1000 := rfl

/-- The plan when the SMA pullback branch is taken. -/

theorem planOf_sma (cfg : Config) (df : List EnrichedBar) (s : ℚ)
    (hs : (latestOf df).sma20 = some s) (hp : pullback_by_sma20_of df = true) :
    planOf cfg df =
      { buy_zone := some (max (recent_low_of cfg.pullback_ndays df) (s * (98/100)),
                          max (latestOf df).close s)
        buy_break := none
        stop_loss := some (recent_low_of cfg.pullback_ndays df * (1 - cfg.sl_buffer_pct))
        vol_entry_ok := vol_ok_of cfg.vol_min_ratio_entry df
        vol_confirm_ok := vol_ok_of cfg.vol_min_ratio_confirm df } := by
  unfold planOf; rw [hs, hp]

/-- The plan when the SMA pullback branch is not taken. -/

theorem planOf_else (cfg : Config) (df : List EnrichedBar)
    (h1 : pullback_by_sma20_of df = false) :
    planOf cfg df =
      if pullback_by_pct_of cfg df then
        { buy_zone := some (recent_low_of cfg.pullback_ndays df,
                            (recent_high_of cfg.pullback_ndays df + recent_low_of cfg.pullback_ndays df) / 2)
          buy_break := none
          stop_loss := some (recent_low_of cfg.pullback_ndays df * (1 - cfg.sl_buffer_pct))
          vol_entry_ok := vol_ok_of cfg.vol_min_ratio_entry df
          vol_confirm_ok := vol_ok_of cfg.vol_min_ratio_confirm df }
      else
        { buy_zone := none
          buy_break := some ((latestOf df).high * (1002/1000))
          stop_loss := some (recent_low_of cfg.pullback_ndays df * (1 - cfg.sl_buffer_pct))
          vol_entry_ok := vol_ok_of cfg.vol_min_ratio_entry df
          vol_confirm_ok := vol_ok_of cfg.vol_min_ratio_confirm df } := by
  unfold planOf
  cases ho : (latestOf df).sma20 <;> rw [h1]

/-- Claim C4: the suggested trade plan follows the three-branch rule — the
SMA-anchored zone when pullback-by-SMA fired, the retracement zone when only
pullback-by-pct fired, the breakout trigger high × 1.002 otherwise — and in
all three branches the stop loss is recent_low × (1 − 0.015). -/

theorem claim_C4_plan (df : List EnrichedBar) (h : 2 ≤ df.length) :
    ((decision_pullback_balanced df).flags.pullback_by_sma20 = true →
      ∃ s20, (latestOf df).sma20 = some s20 ∧
        (decision_pullback_balanced df).plan.buy_zone
          = some (max (recent_low_of 10 df) (s20 * (98/100)), max (latestOf df).close s20) ∧
        (decision_pullback_balanced df).plan.buy_break = none)
    ∧ ((decision_pullback_balanced df).flags.pullback_by_sma20 = false →
        (decision_pullback_balanced df).flags.pullback_by_pct = true →
        (decision_pullback_balanced df).plan.buy_zone
          = some (recent_low_of 10 df, (recent_high_of 10 df + recent_low_of 10 df) / 2) ∧
        (decision_pullback_balanced df).plan.buy_break = none)
    ∧ ((decision_pullback_balanced df).flags.pullback_by_sma20 = false →
        (decision_pullback_balanced df).flags.pullback_by_pct = false →
        (decision_pullback_balanced df).plan.buy_break
          = some ((latestOf df).high * (1002/1000)) ∧
        (decision_pullback_balanced df).plan.buy_zone = none)
    ∧ (decision_pullback_balanced df).plan.stop_loss
        = some (recent_low_of 10 df * (1 - (15/1000 : ℚ))) := by
  have hflag : (decision_pullback_balanced df).flags.pullback_by_sma20
      = pullback_by_sma20_of df := rfl
  have hpct : (decision_pullback_balanced df).flags.pullback_by_pct
      = pullback_by_pct_of balancedConfig df := rfl
  have hplan : (decision_pullback_balanced df).plan = planOf balancedConfig df := rfl
  refine ⟨?_, ?_, ?_, ?_⟩
  · intro hp
    rw [hflag] at hp
    rcases (pullback_by_sma20_spec df).mp hp with ⟨s, hs, -⟩
    refine ⟨s, hs, ?_, ?_⟩ <;>
      simp [hplan, planOf_sma balancedConfig df s hs hp, balanced_ndays]
  · intro h1 h2
    rw [hflag] at h1; rw [hpct] at h2
    constructor <;>
      simp [hplan, planOf_else balancedConfig df h1, h2, balanced_ndays]
  · intro h1 h2
    rw [hflag] at h1; rw [hpct] at h2
    constructor <;>
      simp [hplan, planOf_else balancedConfig df h1, h2, balanced_ndays]
  · cases hp : pullback_by_sma20_of df with
    | true =>
      rcases (pullback_by_sma20_spec df).mp hp with ⟨s, hs, -⟩
      simp [hplan, planOf_sma balancedConfig df s hs hp, balanced_ndays, balanced_slbuf]
    | false =>
      by_cases hq : pullback_by_pct_of balancedConfig df = true <;>
        simp [hplan, planOf_else balancedConfig df hp, hq, balanced_ndays, balanced_slbuf]

/-- Witness for claim C4 at the concrete two-bar frame dfW. -/

theorem claim_C4_witness :
    (((decision_pullback_balanced dfW).flags.pullback_by_sma20 = true →
      ∃ s20, (latestOf dfW).sma20 = some s20 ∧
        (decision_pullback_balanced dfW).plan.buy_zone
          = some (max (recent_low_of 10 dfW) (s20 * (98/100)), max (latestOf dfW).close s20) ∧
        (decision_pullback_balanced dfW).plan.buy_break = none))
    ∧ ((decision_pullback_balanced dfW).flags.pullback_by_sma20 = false →
        (decision_pullback_balanced dfW).flags.pullback_by_pct = true →
        (decision_pullback_balanced dfW).plan.buy_zone
          = some (recent_low_of 10 dfW, (recent_high_of 10 dfW + recent_low_of 10 dfW) / 2) ∧
        (decision_pullback_balanced dfW).plan.buy_break = none)
    ∧ ((decision_pullback_balanced dfW).flags.pullback_by_sma20 = false →
        (decision_pullback_balanced dfW).flags.pullback_by_pct = false →
        (decision_pullback_balanced dfW).plan.buy_break
          = some ((latestOf dfW).high * (1002/1000)) ∧
        (decision_pullback_balanced dfW).plan.buy_zone = none)
    ∧ (decision_pullback_balanced dfW).plan.stop_loss
        = some (recent_low_of 10 dfW * (1 - (15/1000 : ℚ))) :=
  claim_C4_plan dfW (by simp [dfW])

/-- Claim C5: exactly one of buy_zone and buy_break is populated (never
both, never neither), and stop_loss is always populated. -/

theorem claim_C5_exactly_one (df : List EnrichedBar) (h : 2 ≤ df.length) :
    (((decision_pullback_balanced df).plan.buy_zone.isSome = true ∧
        (decision_pullback_balanced df).plan.buy_break = none)
      ∨ ((decision_pullback_balanced df).plan.buy_zone = none ∧
        (decision_pullback_balanced df).plan.buy_break.isSome = true))
    ∧ (decision_pullback_balanced df).plan.stop_loss.isSome = true := by
  have hplan : (decision_pullback_balanced df).plan = planOf balancedConfig df := rfl
  rw [hplan]; unfold planOf
  cases ho : (latestOf df).sma20 with
  | none =>
    by_cases hq : pullback_by_pct_of balancedConfig df = true
    · rw [if_pos hq]; exact ⟨Or.inl ⟨rfl, rfl⟩, rfl⟩
    · rw [if_neg hq]; exact ⟨Or.inr ⟨rfl, rfl⟩, rfl⟩
  | some s =>
    cases hp : pullback_by_sma20_of df with
    | true => exact ⟨Or.inl ⟨rfl, rfl⟩, rfl⟩
    | false =>
      by_cases hq : pullback_by_pct_of balancedConfig df = true
      · rw [if_pos hq]; exact ⟨Or.inl ⟨rfl, rfl⟩, rfl⟩
      · rw [if_neg hq]; exact ⟨Or.inr ⟨rfl, rfl⟩, rfl⟩

/-- Witness for claim C5 at the concrete two-bar frame dfW. -/

theorem claim_C5_witness :
    ((((decision_pullback_balanced dfW).plan.buy_zone.isSome = true ∧
        (decision_pullback_balanced dfW).plan.buy_break = none)
      ∨ ((decision_pullback_balanced dfW).plan.buy_zone = none ∧
        (decision_pullback_balanced dfW).plan.buy_break.isSome = true)))
    ∧ (decision_pullback_balanced dfW).plan.stop_loss.isSome = true :=
  claim_C5_exactly_one dfW (by simp [dfW])

/-- Claim C6: the RSI momentum flag is true exactly when (RSI in [30,50]
and rising) or (previous RSI < 30 and current ≥ 30) or (previous RSI < 40
and current ≥ 40). -/

theorem claim_C6_rsi_rule (df : List EnrichedBar) (h : 2 ≤ df.length) :
    (decision_pullback_balanced df).flags.rsi_ok = true ↔
      ((30 ≤ (latestOf df).rsi ∧ (latestOf df).rsi ≤ 50 ∧ (prevOf df).rsi < (latestOf df).rsi)
        ∨ ((prevOf df).rsi < 30 ∧ 30 ≤ (latestOf df).rsi)
        ∨ ((prevOf df).rsi < 40 ∧ 40 ≤ (latestOf df).rsi)) := by
  simp [decision_pullback_balanced, decisionB, flagsOf, rsi_ok_of]

/-- Witness for claim C6 at the concrete two-bar frame dfW. -/

theorem claim_C6_witness :
    (decision_pullback_balanced dfW).flags.rsi_ok = true ↔
      ((30 ≤ (latestOf dfW).rsi ∧ (latestOf dfW).rsi ≤ 50 ∧ (prevOf dfW).rsi < (latestOf dfW).rsi)
        ∨ ((prevOf dfW).rsi < 30 ∧ 30 ≤ (latestOf dfW).rsi)
        ∨ ((prevOf dfW).rsi < 40 ∧ 40 ≤ (latestOf dfW).rsi)) :=
  claim_C6_rsi_rule dfW (by simp [dfW])

/-- Claim C7: the decision engine always emits exactly five reasons, one
per rule, in the fixed order trend, pullback, RSI, MACD, volume. -/

theorem claim_C7_reasons (df : List EnrichedBar) (h : 2 ≤ df.length) :
    (decision_pullback_balanced df).reasons.length = 5
    ∧ (decision_pullback_balanced df).reasons.map ruleOf
        = [RuleName.trend, RuleName.pullback, RuleName.rsi, RuleName.macd, RuleName.volume] := by
  constructor
  · by_cases hp : pullback_by_sma20_of df = true <;>
      by_cases hq : pullback_by_pct_of balancedConfig df = true <;>
        simp [decision_pullback_balanced, decisionB, reasonsOf, hp, hq]
  · by_cases hp : pullback_by_sma20_of df = true <;>
      by_cases hq : pullback_by_pct_of balancedConfig df = true <;>
        simp [decision_pullback_balanced, decisionB, reasonsOf, ruleOf, hp, hq]

/-- Witness for claim C7 at the concrete two-bar frame dfW. -/

theorem claim_C7_witness :
    (decision_pullback_balanced dfW).reasons.length = 5
    ∧ (decision_pullback_balanced dfW).reasons.map ruleOf
        = [RuleName.trend, RuleName.pullback, RuleName.rsi, RuleName.macd, RuleName.volume] :=
  claim_C7_reasons dfW (by simp [dfW])

/-- Claim C8: with a non-negative volume SMA, lowering the volume entry
ratio never flips the verdict from true to false: if entry is true under
ratio r it stays true under any r2 < r, all other inputs unchanged. -/

theorem claim_C8_ratio_monotone (df : List EnrichedBar) (cfg : Config) (r2 : ℚ)
    (hr : r2 < cfg.vol_min_ratio_entry)
    (hnn : ∀ v, (latestOf df).vol_sma = some v → 0 ≤ v)
    (he : (decisionB cfg df).entry = true) :
    (decisionB { cfg with vol_min_ratio_entry := r2 } df).entry = true := by
  have he' : (trend_ok_of df && (pullback_by_sma20_of df || pullback_by_pct_of cfg df)
      && (rsi_ok_of df || macd_ok_of df) && vol_ok_of cfg.vol_min_ratio_entry df) = true := he
  simp only [Bool.and_eq_true] at he'
  obtain ⟨⟨⟨ht, hpb⟩, hrm⟩, hv⟩ := he'
  rcases (vol_ok_spec cfg.vol_min_ratio_entry df).mp hv with ⟨v, hvs, hle⟩
  have h0 : 0 ≤ v := hnn v hvs
  have hle2 : r2 * v ≤ (latestOf df).volume :=
    le_trans (mul_le_mul_of_nonneg_right (le_of_lt hr) h0) hle
  have hv2 : vol_ok_of r2 df = true := (vol_ok_spec r2 df).mpr ⟨v, hvs, hle2⟩
  have hgoal : (decisionB { cfg with vol_min_ratio_entry := r2 } df).entry
      = (trend_ok_of df && (pullback_by_sma20_of df || pullback_by_pct_of cfg df)
          && (rsi_ok_of df || macd_ok_of df) && vol_ok_of r2 df) := rfl
  rw [hgoal, ht, hpb, hrm, hv2]
  rfl

/-- Witness for claim C8: on dfW, entry holds with the default entry ratio
0.8, hence also with the lowered ratio 1/2. -/

theorem claim_C8_witness :
    (decisionB { balancedConfig with vol_min_ratio_entry := (1/2 : ℚ) } dfW).entry = true :=
  claim_C8_ratio_monotone dfW balancedConfig (1/2)
    (by rw [balanced_entry_ratio]; norm_num)
    (by intro v hv
        simp [latestOf, dfW, bar2] at hv
        simp [← hv])
    (by norm_num [decisionB, entryOf, trend_ok_of, pullback_by_sma20_of, rsi_ok_of,
      macd_ok_of, vol_ok_of, latestOf, prevOf, dfW, bar1, bar2, balanced_entry_ratio])

/-- Claim C9: with a defined, non-negative volume SMA, the confirmation
flag (ratio 1.2) implies the entry flag (ratio 0.8). -/

theorem claim_C9_confirm_implies_entry (df : List EnrichedBar)
    (hnn : ∀ v, (latestOf df).vol_sma = some v → 0 ≤ v)
    (hc : (decision_pullback_balanced df).flags.vol_confirm_ok = true) :
    (decision_pullback_balanced df).flags.vol_entry_ok = true := by
  have hc0 : vol_ok_of balancedConfig.vol_min_ratio_confirm df = true := hc
  rw [balanced_confirm_ratio] at hc0
  rcases (vol_ok_spec (12/10) df).mp hc0 with ⟨v, hvs, hle⟩
  have h0 : 0 ≤ v := hnn v hvs
  have hmono : (8/10 : ℚ) * v ≤ (12/10 : ℚ) * v :=
    mul_le_mul_of_nonneg_right (by norm_num) h0
  have hentry : vol_ok_of (8/10) df = true :=
    (vol_ok_spec (8/10) df).mpr ⟨v, hvs, le_trans hmono hle⟩
  show vol_ok_of balancedConfig.vol_min_ratio_entry df = true
  rw [balanced_entry_ratio]
  exact hentry

theorem claim_C9_witness :
    (decision_pullback_balanced df9).flags.vol_entry_ok = true :=
  claim_C9_confirm_implies_entry df9
    (by intro v hv
        simp [latestOf, df9, bar3, bar2] at hv
        simp [← hv])
    (by norm_num [decision_pullback_balanced, decisionB, flagsOf, vol_ok_of, latestOf,
      df9, bar3, bar2, balanced_confirm_ratio])

/-- Claim C10: over valid bars (0 < low ≤ close, low ≤ high), whenever
buy_zone is populated its lower bound is at most its upper bound, in both
the SMA-based and the percentage-based branch. -/

theorem claim_C10_zone_ordered (df : List EnrichedBar) (h2 : 2 ≤ df.length)
    (hvalid : ∀ b ∈ df, 0 < b.low ∧ b.low ≤ b.close ∧ b.low ≤ b.high)
    (lo hi : ℚ) (hz : (decision_pullback_balanced df).plan.buy_zone = some (lo, hi)) :
    lo ≤ hi := by
  have hdf : df ≠ [] := by
    intro hnil; rw [hnil] at h2; simp at h2
  have hmem : latestOf df ∈ df := latestOf_mem df hdf
  have hmemN : latestOf df ∈ lastN 10 df := latestOf_mem_lastN df hdf 10 (by norm_num)
  obtain ⟨hlowpos, hlowclose, hlowhigh⟩ := hvalid _ hmem
  have hrl : recent_low_of 10 df ≤ (latestOf df).low :=
    rollMin_le _ _ (List.mem_map_of_mem EnrichedBar.low hmemN)
  have hrh : (latestOf df).high ≤ recent_high_of 10 df :=
    le_rollMax _ _ (List.mem_map_of_mem EnrichedBar.high hmemN)
  have hplan : (decision_pullback_balanced df).plan = planOf balancedConfig df := rfl
  rw [hplan] at hz
  cases hp : pullback_by_sma20_of df with
  | true =>
    rcases (pullback_by_sma20_spec df).mp hp with ⟨s, hs, hls⟩
    rw [planOf_sma balancedConfig df s hs hp] at hz
    simp only [balanced_ndays, Option.some.injEq, Prod.mk.injEq] at hz
    obtain ⟨hlo, hhi⟩ := hz
    have hspos : 0 < s := lt_of_lt_of_le hlowpos hls
    have h1 : recent_low_of 10 df ≤ max (latestOf df).close s :=
      le_trans hrl (le_trans hlowclose (le_max_left _ _))
    have hshrunk : s * (98/100) ≤ s := mul_le_of_le_one_right (le_of_lt hspos) (by norm_num)
    have h2' : s * (98/100) ≤ max (latestOf df).close s :=
      le_trans hshrunk (le_max_right _ _)
    rw [← hlo, ← hhi]
    exact max_le h1 h2'
  | false =>
    rw [planOf_else balancedConfig df hp] at hz
    by_cases hq : pullback_by_pct_of balancedConfig df = true
    · rw [if_pos hq] at hz
      simp only [balanced_ndays, Option.some.injEq, Prod.mk.injEq] at hz
      obtain ⟨hlo, hhi⟩ := hz
      have hlh : recent_low_of 10 df ≤ recent_high_of 10 df :=
        le_trans hrl (le_trans hlowhigh hrh)
      rw [← hlo, ← hhi]
      linarith
    · rw [if_neg hq] at hz
      simp at hz

/-- Witness for claim C10 at dfW, whose SMA-branch zone is (49/5, 10). -/

theorem claim_C10_witness :
    ∃ lo hi, (decision_pullback_balanced dfW).plan.buy_zone = some (lo, hi) ∧ lo ≤ hi := by
  have hz : (decision_pullback_balanced dfW).plan.buy_zone = some (49/5, 10) := by
    norm_num [decision_pullback_balanced, decisionB, planOf, latestOf, dfW, bar1, bar2,
      pullback_by_sma20_of, recent_low_of, lastN, rollMin, balanced_ndays]
  refine ⟨49/5, 10, hz, ?_⟩
  exact claim_C10_zone_ordered dfW (by simp [dfW])
    (by intro b hb
        simp [dfW] at hb
        rcases hb with hb | hb <;> subst hb <;> norm_num [bar1, bar2])
    (49/5) 10 hz

/-! ### Raw bars and prepare_df (lines 106-117), and the main() control
flow (lines 279-295): fetch (external), then prepare_df, then the length
check, then the decision. -/

theorem prepare_df_length (df : List RawBar) : (prepare_df df).length = df.length := by
  simp [prepare_df]

/-- Claim C2, counterexample: on a one-bar series (shorter than the largest
window 200 plus the 5-bar margin) main() does raise the insufficient-history
error, but only after prepare_df has computed the indicator columns — the
step trace starts with the indicator computation, and an RSI value (the
seed 50) has been produced for the short series, contradicting "before any
indicator is computed and computes nothing else". -/

theorem claim_C2_counterexample :
    shortRaw.length < MIN_BARS
    ∧ (mainRun shortRaw).1 = [Step.computeIndicators, Step.raiseInsufficient]
    ∧ ((prepare_df shortRaw).getD 0 default).rsi = 50 := by
  refine ⟨?_, ?_, ?_⟩
  · norm_num [shortRaw, MIN_BARS, SMA_LONG, RSI_PERIOD, VOL_SMA, PULLBACK_NDAYS]
  · have hlen : (prepare_df shortRaw).length = 1 := by
      rw [prepare_df_length]; rfl
    have hshort : (prepare_df shortRaw).length < MIN_BARS := by
      rw [hlen]; norm_num [MIN_BARS, SMA_LONG, RSI_PERIOD, VOL_SMA, PULLBACK_NDAYS]
    simp [mainRun, hshort]
  · norm_num [prepare_df, shortRaw, calc_rsi_wilder, rs_of, avg_gain_of, avg_loss_of,
      ewmMean, ewmGo, diffs, diffsAux, clip_up, clip_down, RSI_PERIOD]

/-- Claim C2 (amended): for every raw series shorter than the largest
configured window plus the 5-bar safety margin, main() raises the
insufficient-history error — after the indicator columns were computed but
before the decision engine runs, so no verdict is produced. -/

theorem claim_C2_insufficient (df0 : List RawBar) (h : df0.length < MIN_BARS) :
    (mainRun df0).1 = [Step.computeIndicators, Step.raiseInsufficient]
    ∧ (mainRun df0).2 = Except.error "insufficient history" := by
  have hlen : (prepare_df df0).length < MIN_BARS := by
    rw [prepare_df_length]; exact h
  constructor <;> simp [mainRun, hlen]

/-- Witness for claim C2's amended theorem at the empty raw series. -/

theorem claim_C2_witness :
    (mainRun []).1 = [Step.computeIndicators, Step.raiseInsufficient]
    ∧ (mainRun []).2 = Except.error "insufficient history" :=
  claim_C2_insufficient []
    (by norm_num [MIN_BARS, SMA_LONG, RSI_PERIOD, VOL_SMA, PULLBACK_NDAYS])

end PullbackTW
